import Mathlib

/-!
Verification development for the skygear-server request router
(`commonRouter`), the filesystem asset store (`AssetStore`) and the logger
registry (`logging.Logger`).

The router is embedded shallowly: the `http.ResponseWriter` becomes an
explicit `Wire` record, the goroutine/timer concurrency becomes a race
oracle constrained by whether the timeout channel can ever fire, and Go
panics become an explicit `panicked` outcome of processors and handlers.
Collaborator types that the router file references but that are defined
elsewhere in the repository (`skyerr`, `Payload`, `Response`) are modelled
from the specification and marked as such.
-/

namespace Router

/-- Modelled from the spec: the error codes of the error-handling taxonomy
(decode failure, unknown route, recovered internal fault, response timeout),
plus application-level codes carrying their own canonical status. The
concrete `skyerr` package is not part of the reviewed sources. -/
inductive ErrorCode where
  | requestJSONInvalid
  | undefinedOperation
  | unexpectedError
  | responseTimeout
  | appError (status : Nat)
deriving DecidableEq

/-- Modelled from the spec: an Error is a (code, message) pair. -/
structure SkyError where
  code : ErrorCode
  message : String
deriving DecidableEq

/-- Modelled from the spec: `skyerr.NewError` builds the (code, message) pair. -/
def NewError (code : ErrorCode) (message : String) : SkyError := ⟨code, message⟩

/-- Modelled from the spec: `skyerr.NewRequestJSONInvalidErr` wraps a decode
failure as a request-JSON-invalid (RequestMalformed) error. -/
def NewRequestJSONInvalidErr (e : String) : SkyError := ⟨.requestJSONInvalid, e⟩

/-- Modelled from the spec: a recovered runtime fault is converted to a
generic InternalFault (unexpected error) carrying a description derived from
the fault payload. -/
def errorFromRecoveringPanic (pv : String) : SkyError :=
  ⟨.unexpectedError, "panic: " ++ pv⟩

/-- Modelled from the spec: the pure mapping from an error to its canonical
default HTTP status — bad request for decode failures, not found for unknown
routes, internal error for recovered faults, a fixed dedicated status for
response timeout, and an application-chosen status otherwise. -/
def defaultStatusCode (e : SkyError) : Nat :=
  match e.code with
  | .requestJSONInvalid => 400
  | .undefinedOperation => 404
  | .unexpectedError => 500
  | .responseTimeout => 503
  | .appError s => s

/-- The fixed timeout error installed by the finalizer when the deadline wins
the race. -/
def responseTimeoutErr : SkyError :=
  NewError .responseTimeout "Service taking too long to respond."

/-- Result body of a response; `encodable` records whether JSON serialization
of the result succeeds (`json.Encoder.Encode` can fail on unsupported
values). -/
structure ResultData where
  val : Nat
  encodable : Bool
deriving DecidableEq

/-- Modelled from the spec: the parts of a Response that the worker task may
mutate — the optional error and the result body. -/
structure RespCore where
  err : Option SkyError := none
  result : ResultData := ⟨0, true⟩
deriving DecidableEq

/-- JSON entity written to the wire: either the error object or the result. -/
inductive WireBody where
  | errorBody (code : ErrorCode) (message : String)
  | resultBody (r : ResultData)
deriving DecidableEq

/-- Modelled from the spec: the wire format reflects either a success result
or the error object with code and message; a non-serializable success result
fails to encode. -/
def encodeEntity (core : RespCore) : Option WireBody :=
  match core.err with
  | some e => some (.errorBody e.code e.message)
  | none => if core.result.encodable then some (.resultBody core.result) else none

/-- State of the underlying `http.ResponseWriter`: the headers, the status
line once written, and the JSON body once written. -/
structure Wire where
  headers : List (String × String) := []
  status : Option Nat := none
  body : Option WireBody := none
deriving DecidableEq

/-- `Header().Set` replaces any previous value of the key. -/
def setHeader (w : Wire) (k v : String) : Wire :=
  {w with headers := (k, v) :: w.headers.filter (fun kv => kv.1 != k)}

def headerGet (w : Wire) (k : String) : Option String :=
  w.headers.lookup k

/-- Modelled from the spec: a Response holds a write target consumed at most
once (nulled once finalized), an optional error and the result body. -/
structure Response where
  writer : Option Wire
  core : RespCore
deriving DecidableEq

/-- Embedding of `writeEntity`: a nil writer is an error; otherwise the
response entity is JSON-encoded onto the wire, which fails on unsupported
values. -/
def writeEntity (w : Option Wire) (core : RespCore) : Except String Wire :=
  match w with
  | none => .error "writer is nil"
  | some wire =>
    match encodeEntity core with
    | some body => .ok {wire with body := some body}
    | none => .error "json: unsupported value"

/-- Modelled from the spec: a Payload carries the decoded body data, a stable
request identifier, and the request-tag context value set after matching. -/
structure Payload where
  data : Nat := 0
  requestID : Option String := none
  requestTag : Option String := none
deriving DecidableEq

/-- Outcome of one processor invocation: a status hint with the updated
response, or a panic carrying the fault payload and the response state the
processor left behind. -/
inductive ProcResult where
  | ok (httpStatus : Nat) (resp : RespCore)
  | panicked (pv : String) (resp : RespCore)

/-- Outcome of the terminal handler: done, or a panic. -/
inductive HandleResult where
  | done (resp : RespCore)
  | panicked (pv : String) (resp : RespCore)

abbrev Processor := Payload → RespCore → ProcResult

abbrev Handler := Payload → RespCore → HandleResult

/-- Embedding of `routeConfig`. -/
structure routeConfig where
  Tag : String
  Preprocessors : List Processor
  handler : Handler

/-- Embedding of `commonRouter`: the decoder, the route matcher, and the
configured response timeout (int64 nanoseconds). -/
structure commonRouter where
  payloadFunc : String → Except String Payload
  matchHandlerFunc : Payload → Except String routeConfig
  ResponseTimeout : Int

/-- A timer channel, reduced to whether it ever fires. -/
structure TimeChan where
  fires : Bool
deriving DecidableEq

/-- `time.After`: a channel that fires once after the given duration. -/
def timeAfter (_timeout : Int) : TimeChan := ⟨true⟩

/-- `make(chan time.Time)`: a fresh channel on which nothing ever sends. -/
def newTimeChan : TimeChan := ⟨false⟩

/-- Embedding of `getTimeoutChan`. Durations are int64 nanoseconds, and the
source condition `timeout.Seconds() > 0` holds exactly when the nanosecond
count is positive. -/
def getTimeoutChan (timeout : Int) : TimeChan :=
  if 0 < timeout then timeAfter timeout else newTimeChan

/-- Which branch of the select in `HandlePayload` fires first. -/
inductive RaceWinner where
  | workerDone
  | timerFired
deriving DecidableEq

/-- The select can pick the timer branch only when the timeout channel can
fire; otherwise the worker-completion branch is the only one that unblocks.
The oracle stands for the nondeterministic scheduling of the race. -/
def raceWinner (timeout : Int) (oracle : RaceWinner) : RaceWinner :=
  if (getTimeoutChan timeout).fires then oracle else .workerDone

/-- Embedding of the processor loop and handler call inside `callHandler`,
before panic recovery: processors run in registration order, the chain stops
at the first one that leaves `resp.Err` set (taking the error's default
mapping when the status hint is still the default 200), and otherwise the
handler runs once with the last processor's hint as the status. -/
def runChainAndHandler (handler : Handler) (payload : Payload) :
    List Processor → Nat → RespCore → Except (String × RespCore) (Nat × RespCore)
  | [], httpStatus, resp =>
    match handler payload resp with
    | .done r => .ok (httpStatus, r)
    | .panicked pv r => .error (pv, r)
  | p :: rest, _, resp =>
    match p payload resp with
    | .panicked pv r => .error (pv, r)
    | .ok s r =>
      match r.err with
      | some e => .ok (if s = 200 then defaultStatusCode e else s, r)
      | none => runChainAndHandler handler payload rest s r

/-- Embedding of `callHandler`: the deferred recover converts a panic raised
anywhere in the chain or the handler into an InternalFault error on the
response, and the status is recomputed from that error's canonical mapping. -/
def callHandler (handler : Handler) (pp : List Processor) (payload : Payload)
    (resp : RespCore) : Nat × RespCore :=
  match runChainAndHandler handler payload pp 200 resp with
  | .ok out => out
  | .error (pv, r) =>
    let e := errorFromRecoveringPanic pv
    (defaultStatusCode e, {r with err := some e})

/-- Result of one pass through the deferred finalizer of `HandlePayload`: the
response afterwards, and the wire content written by this pass (`none` when
the early nil-writer return was taken). -/
structure FinalizeOut where
  resp : Response
  written : Option Wire
deriving DecidableEq

/-- Embedding of the deferred finalizer of `HandlePayload`: recover a panic
into an InternalFault error; return immediately when the write target is
already nil; otherwise set `Content-Type`, override the error with the fixed
timeout error when the request timed out, resolve a default status from the
error when the status is still 2xx, then write the status and the entity.
A `writeEntity` failure is re-raised after the recovery point and escapes as
the error case. The nulling of the write target after a successful write is
modelled from the spec invariant that a finalized Response's write target is
nulled. -/
def finalizeResponse (panicked : Option String) (timedOut : Bool)
    (httpStatus : Nat) (resp : Response) : Except String FinalizeOut :=
  let resp1 : Response :=
    match panicked with
    | some pv =>
      {resp with core := {resp.core with err := some (errorFromRecoveringPanic pv)}}
    | none => resp
  match resp1.writer with
  | none => .ok ⟨resp1, none⟩
  | some wire =>
    let wire1 := setHeader wire "Content-Type" "application/json"
    let resp2 : Response :=
      if timedOut then
        {resp1 with core := {resp1.core with err := some responseTimeoutErr}}
      else resp1
    let status : Nat :=
      match resp2.core.err with
      | some e => if 200 ≤ httpStatus ∧ httpStatus ≤ 299 then defaultStatusCode e else httpStatus
      | none => httpStatus
    let wire2 := {wire1 with status := some status}
    match writeEntity (some wire2) resp2.core with
    | .error e => .error e
    | .ok wire3 => .ok ⟨{resp2 with writer := none}, some wire3⟩

/-- Embedding of `HandlePayload`. The worker goroutine and the select are
modelled by the race oracle: when the worker side wins, the finalizer sees
the worker's (status, response); when the timer side wins, `observed` stands
for whatever shared (status, response) state the finalizer reads while racing
the still-running worker. -/
def HandlePayload (r : commonRouter) (payload : Payload) (resp : Response)
    (oracle : RaceWinner) (observed : Nat × RespCore) : Except String FinalizeOut :=
  match r.matchHandlerFunc payload with
  | .error e =>
    finalizeResponse none false 404
      {resp with core := {resp.core with err := some (NewError .undefinedOperation e)}}
  | .ok rc =>
    let payload1 := {payload with requestTag := some rc.Tag}
    match raceWinner r.ResponseTimeout oracle with
    | .workerDone =>
      let out := callHandler rc.handler rc.Preprocessors payload1 resp.core
      finalizeResponse none false out.1 {resp with core := out.2}
    | .timerFired =>
      finalizeResponse none true observed.1 {resp with core := observed.2}

/-- The Server header value, a product/version string (`skyversion` is outside
the reviewed sources). -/
def serverHeaderValue : String := "Skygear Server/1.0"

/-- Embedding of `ServeHTTP`: set the Server header, decode the payload, and
on decode failure set the request-JSON-invalid error and write only the
status taken from its canonical mapping, then return; otherwise delegate to
`HandlePayload`. -/
def ServeHTTP (r : commonRouter) (req : String) (w : Wire)
    (oracle : RaceWinner) (observed : Nat × RespCore) : Except String FinalizeOut :=
  let w1 := setHeader w "Server" serverHeaderValue
  match r.payloadFunc req with
  | .error e =>
    let err := NewRequestJSONInvalidErr e
    let w2 := {w1 with status := some (defaultStatusCode err)}
    .ok ⟨⟨some w2, ⟨some err, ⟨0, true⟩⟩⟩, some w2⟩
  | .ok payload =>
    HandlePayload r payload ⟨some w1, ⟨none, ⟨0, true⟩⟩⟩ oracle observed

/-- In-registration-order fold of the processor chain, threading the status
hint; used to describe the intermediate states of the loop in `callHandler`.
The panic branch is never reached under the side condition `chainAllOk`. -/
def chainFold (payload : Payload) : List Processor → Nat → RespCore → Nat × RespCore
  | [], s, c => (s, c)
  | p :: rest, s, c =>
    match p payload c with
    | .ok s2 c2 => chainFold payload rest s2 c2
    | .panicked _ _ => (s, c)

/-- Decidable side condition: along the actual execution states, every
processor of the list returns without panicking and without setting an
error. -/
def chainAllOk (payload : Payload) : List Processor → RespCore → Bool
  | [], _ => true
  | p :: rest, c =>
    match p payload c with
    | .ok _ c2 => c2.err.isNone && chainAllOk payload rest c2
    | .panicked _ _ => false

/-- What `callHandler` does once the chain has completed without error: run
the handler exactly once on the folded state, recovering a handler panic into
an InternalFault error with its canonical status. -/
def handleOutcome (handler : Handler) (payload : Payload) (sc : Nat × RespCore) :
    Nat × RespCore :=
  match handler payload sc.2 with
  | .done r => (sc.1, r)
  | .panicked pv r =>
    let e := errorFromRecoveringPanic pv
    (defaultStatusCode e, {r with err := some e})

end Router

namespace Fs

/-- A byte range requested from the asset store (`asset.FileRange`, int64
fields). -/
structure FileRange where
  From : Int
  To : Int
deriving DecidableEq

/-- Successful outcome of `GetRangedFileReader` (`asset.FileRangedGetResult`
without the reader handle). -/
structure FileRangedGetResult where
  acceptedRange : FileRange
  totalSize : Int
deriving DecidableEq

/-- Errors of the ranged read: `os.Open` failure, the explicit
`asset.FileRangeNotAcceptedError`, and an `os.File.Seek` failure. -/
inductive FsError where
  | notFound (name : String)
  | rangeNotAccepted (r : FileRange)
  | seekNegative
deriving DecidableEq

/-- The filesystem visible to the store, as a map from file name to file size
in bytes (sizes reported by `Stat` are non-negative, hence `Nat`). -/
structure FileSys where
  files : String → Option Nat

/-- Embedding of `AssetStore.GetRangedFileReader`: open the file, read its
size, reject a range starting at or beyond the end of file, seek to the start
of the range (`Seek(From, 0)` fails on a negative offset), and clamp the
accepted end of range to the last byte of the file. -/
def GetRangedFileReader (fs : FileSys) (name : String) (fileRange : FileRange) :
    Except FsError FileRangedGetResult :=
  match fs.files name with
  | none => .error (.notFound name)
  | some size =>
    let fileSize : Int := (size : Int)
    if fileRange.From ≥ fileSize then
      .error (.rangeNotAccepted fileRange)
    else if fileRange.From < 0 then
      .error .seekNegative
    else
      let acceptedTo := if fileRange.To > fileSize - 1 then fileSize - 1 else fileRange.To
      .ok ⟨⟨fileRange.From, acceptedTo⟩, fileSize⟩

end Fs

namespace Logging

/-- Loggers are identified by the order in which `logrus.New` allocated them;
the standard logger registered by `init` is logger 0. -/
abbrev LoggerId := Nat

/-- State of the process-wide logger registry: the registered name-to-logger
map, the next fresh logger id, whether a configure-logger handler is
installed, and the record of (name, logger) configuration calls made through
the handler. -/
structure LogState where
  loggers : List (String × LoggerId)
  nextId : LoggerId
  handlerInstalled : Bool
  configured : List (String × LoggerId)
deriving DecidableEq

/-- Registry state right after the package `init`: the standard logger is
registered under the empty name. -/
def initialLogState : LogState :=
  ⟨[("", 0)], 1, false, []⟩

/-- Embedding of `logging.Logger`: under the lock, return the registered
logger for the name if present; otherwise allocate a fresh logger, run the
configure handler on it when one is installed, register it, and return it. -/
def Logger (name : String) (st : LogState) : LoggerId × LogState :=
  match st.loggers.lookup name with
  | some l => (l, st)
  | none =>
    let l := st.nextId
    let configured := if st.handlerInstalled then (name, l) :: st.configured else st.configured
    (l, ⟨(name, l) :: st.loggers, st.nextId + 1, st.handlerInstalled, configured⟩)

end Logging

open Router Fs Logging

/-! Concrete fixtures used to exercise the embeddings on sample inputs. -/

def okHandler : Handler := fun _ c => .done {c with result := ⟨42, true⟩}

def panicHandler : Handler := fun _ c => .panicked "boom" c

def badResultHandler : Handler := fun _ c => .done {c with result := ⟨7, false⟩}

def passProcessor : Processor := fun _ c => .ok 200 c

def hintProcessor : Processor := fun _ c => .ok 201 c

def forbidProcessor : Processor := fun _ c =>
  .ok 200 {c with err := some (NewError (.appError 403) "forbidden")}

def sampleDecode (s : String) : Except String Payload :=
  if s = "bad" then .error "EOF" else .ok {data := 1}

def goodRouter : commonRouter :=
  { payloadFunc := sampleDecode,
    matchHandlerFunc := fun _ => .ok ⟨"sample:op", [], okHandler⟩,
    ResponseTimeout := 50000000 }

def panicRouter : commonRouter :=
  { payloadFunc := sampleDecode,
    matchHandlerFunc := fun _ => .ok ⟨"sample:op", [], panicHandler⟩,
    ResponseTimeout := 50000000 }

def badEncodeRouter : commonRouter :=
  { payloadFunc := sampleDecode,
    matchHandlerFunc := fun _ => .ok ⟨"sample:op", [], badResultHandler⟩,
    ResponseTimeout := 0 }

def disabledTimeoutRouter : commonRouter :=
  { payloadFunc := sampleDecode,
    matchHandlerFunc := fun _ => .ok ⟨"sample:op", [], okHandler⟩,
    ResponseTimeout := 0 }

def freshResp : Response := ⟨some {}, {}⟩

def sampleFs : FileSys := ⟨fun n => if n = "hello.txt" then some 5 else none⟩

/-- C9 counterexample: on a 5-byte file with requested range [-1, 3], the
start is below the size, yet the seek fails on the negative offset and the
call returns an error instead of the result the claim predicts. -/
theorem c9_counterexample :
    GetRangedFileReader sampleFs "hello.txt" ⟨-1, 3⟩ =
      Except.error (FsError.seekNegative) ∧
    (-1 : Int) < ((5 : Nat) : Int) ∧
    (GetRangedFileReader sampleFs "hello.txt" ⟨-1, 3⟩).toOption = none := by
  refine ⟨rfl, by decide, rfl⟩

/-- C9 (amended: the result branch only covers non-negative requested starts,
because `Seek(From, 0)` fails on a negative offset): for every file of size
S, a range starting at or beyond S is rejected with
FileRangeNotAcceptedError, a range starting below zero fails in the seek, and
a range with 0 ≤ From < S yields a result whose accepted range is
[From, min To (S-1)] with TotalSize S. -/
theorem c9_ranged_reader (fs : FileSys) (name : String) (r : FileRange) (S : Nat)
    (hfile : fs.files name = some S) :
    (r.From ≥ (S : Int) →
      GetRangedFileReader fs name r = .error (.rangeNotAccepted r)) ∧
    (r.From < 0 →
      GetRangedFileReader fs name r = .error .seekNegative) ∧
    (0 ≤ r.From → r.From < (S : Int) →
      GetRangedFileReader fs name r =
        .ok ⟨⟨r.From, min r.To ((S : Int) - 1)⟩, (S : Int)⟩) := by
  have hmain : GetRangedFileReader fs name r =
      (if r.From ≥ ((S : Nat) : Int) then .error (.rangeNotAccepted r)
       else if r.From < 0 then .error .seekNegative
       else .ok ⟨⟨r.From, if r.To > ((S : Nat) : Int) - 1 then ((S : Nat) : Int) - 1 else r.To⟩,
         ((S : Nat) : Int)⟩) := by
    simp only [GetRangedFileReader, hfile]
  refine ⟨?_, ?_, ?_⟩
  · intro h
    rw [hmain, if_pos h]
  · intro h
    have hlt : r.From < ((S : Nat) : Int) := lt_of_lt_of_le h (Int.natCast_nonneg S)
    rw [hmain, if_neg (not_le.mpr hlt), if_pos h]
  · intro hFrom h
    rw [hmain, if_neg (not_le.mpr h), if_neg (not_lt.mpr hFrom)]
    rcases lt_or_le (((S : Nat) : Int) - 1) r.To with hto | hto
    · rw [if_pos hto, min_eq_right (le_of_lt hto)]
    · rw [if_neg (not_lt.mpr hto), min_eq_left hto]

theorem c9_ranged_reader_witness :
    GetRangedFileReader sampleFs "hello.txt" ⟨2, 9⟩ =
      .ok ⟨⟨2, min 9 (((5 : Nat) : Int) - 1)⟩, ((5 : Nat) : Int)⟩ ∧
    GetRangedFileReader sampleFs "hello.txt" ⟨7, 9⟩ =
      .error (.rangeNotAccepted ⟨7, 9⟩) ∧
    GetRangedFileReader sampleFs "hello.txt" ⟨-2, 3⟩ =
      .error .seekNegative := by
  refine ⟨?_, ?_, ?_⟩
  · exact (c9_ranged_reader sampleFs "hello.txt" ⟨2, 9⟩ 5 rfl).2.2 (by decide) (by decide)
  · exact (c9_ranged_reader sampleFs "hello.txt" ⟨7, 9⟩ 5 rfl).1 (by decide)
  · exact (c9_ranged_reader sampleFs "hello.txt" ⟨-2, 3⟩ 5 rfl).2.1 (by decide)

/-- C10 (confirmed): the logger registry is memoizing and idempotent — a
registered name is returned as-is with the state unchanged, a fresh name
allocates, configures (when a handler is installed) and registers exactly one
logger, and registrations for other names never disturb an existing entry. -/
theorem c10_logger_registry (name : String) (st : LogState) :
    (∀ l, st.loggers.lookup name = some l → Logger name st = (l, st)) ∧
    (st.loggers.lookup name = none →
      Logger name st =
        (st.nextId,
         ⟨(name, st.nextId) :: st.loggers, st.nextId + 1, st.handlerInstalled,
          if st.handlerInstalled then (name, st.nextId) :: st.configured
          else st.configured⟩) ∧
      ((Logger name st).2).loggers.lookup name = some st.nextId) ∧
    (∀ other l, other ≠ name → st.loggers.lookup name = some l →
      ((Logger other st).2).loggers.lookup name = some l) := by
  refine ⟨?_, ?_, ?_⟩
  · intro l hl
    simp [Logger, hl]
  · intro hn
    refine ⟨by simp [Logger, hn], ?_⟩
    simp [Logger, hn, List.lookup]
  · intro other l hne hl
    cases ho : st.loggers.lookup other with
    | some l2 => simpa [Logger, ho] using hl
    | none =>
      simp only [Logger, ho, List.lookup]
      rw [show (name == other) = false from beq_eq_false_iff_ne.mpr (Ne.symm hne)]
      exact hl

/-! Helper lemmas about the router's finalization step. -/

theorem writeEntity_ok_headers {w : Wire} {core : RespCore} {out : Wire}
    (h : writeEntity (some w) core = .ok out) : out.headers = w.headers := by
  simp only [writeEntity] at h
  split at h
  · cases h
    rfl
  · cases h

theorem finalize_nulls_writer {p : Option String} {t : Bool} {s : Nat}
    {resp : Response} {out : FinalizeOut}
    (h : finalizeResponse p t s resp = .ok out) : out.resp.writer = none := by
  simp only [finalizeResponse] at h
  split at h
  · cases h
    next heq =>
      simp [← heq]
  · split at h
    · cases h
    · cases h
      rfl

/-- C6 (confirmed): finalization is idempotent — when the write target is
already nil the finalizer returns immediately without writing, and after any
successful finalization the write target is nulled, so a second finalization
of the same Response is a no-op that writes nothing. -/
theorem c6_finalize_idempotent :
    (∀ (t : Bool) (s : Nat) (resp : Response), resp.writer = none →
      finalizeResponse none t s resp = .ok ⟨resp, none⟩) ∧
    (∀ (p : Option String) (t : Bool) (s : Nat) (resp : Response) (out : FinalizeOut),
      finalizeResponse p t s resp = .ok out →
      ∀ (t2 : Bool) (s2 : Nat),
        finalizeResponse none t2 s2 out.resp = .ok ⟨out.resp, none⟩) := by
  have base : ∀ (t : Bool) (s : Nat) (resp : Response), resp.writer = none →
      finalizeResponse none t s resp = .ok ⟨resp, none⟩ := by
    intro t s resp h
    simp only [finalizeResponse, h]
  refine ⟨base, ?_⟩
  intro p t s resp out h t2 s2
  exact base t2 s2 out.resp (finalize_nulls_writer h)

theorem c6_finalize_idempotent_witness :
    finalizeResponse none false 200 (⟨none, ⟨none, ⟨0, true⟩⟩⟩ : Response) =
      .ok ⟨⟨none, ⟨none, ⟨0, true⟩⟩⟩, none⟩ ∧
    finalizeResponse none true 404 (⟨none, ⟨none, ⟨0, true⟩⟩⟩ : Response) =
      .ok ⟨⟨none, ⟨none, ⟨0, true⟩⟩⟩, none⟩ := by
  refine ⟨c6_finalize_idempotent.1 false 200 _ rfl, ?_⟩
  exact c6_finalize_idempotent.2 none false 200 ⟨some {}, ⟨none, ⟨0, true⟩⟩⟩
    ⟨⟨none, ⟨none, ⟨0, true⟩⟩⟩,
     some ⟨[("Content-Type", "application/json")], some 200,
       some (.resultBody ⟨0, true⟩)⟩⟩
    rfl true 404

theorem raceWinner_workerDone (t : Int) : raceWinner t .workerDone = .workerDone := by
  unfold raceWinner
  split <;> rfl

theorem finalize_sets_content_type {p : Option String} {t : Bool} {s : Nat}
    {resp : Response} {w : Wire} {out : FinalizeOut}
    (hw : resp.writer = some w)
    (h : finalizeResponse p t s resp = .ok out) :
    ∃ wire, out.written = some wire ∧
      headerGet wire "Content-Type" = some "application/json" := by
  simp only [finalizeResponse] at h
  have hw1 : (match p with
      | some pv => {resp with core := {resp.core with err := some (errorFromRecoveringPanic pv)}}
      | none => resp).writer = some w := by
    cases p <;> simpa using hw
  rw [hw1] at h
  split at h
  · rename_i heq
    exact absurd heq (by simp)
  · rename_i wire0 heq0
    split at h
    · exact Except.noConfusion h
    · rename_i wire3 heq2
      cases h
      refine ⟨wire3, rfl, ?_⟩
      have hh := writeEntity_ok_headers heq2
      simp only [setHeader] at hh
      simp [headerGet, hh, List.lookup]

theorem finalize_eval_ok {s : Nat} {resp : Response} {w : Wire} {body : WireBody}
    (hw : resp.writer = some w)
    (henc : encodeEntity resp.core = some body) :
    finalizeResponse none false s resp =
      .ok ⟨⟨none, resp.core⟩,
        some ⟨(setHeader w "Content-Type" "application/json").headers,
          some (match resp.core.err with
            | some e => if 200 ≤ s ∧ s ≤ 299 then defaultStatusCode e else s
            | none => s),
          some body⟩⟩ := by
  simp [finalizeResponse, hw, writeEntity, henc]

theorem finalize_eval_timeout {s : Nat} {resp : Response} {w : Wire}
    (hw : resp.writer = some w) :
    finalizeResponse none true s resp =
      .ok ⟨⟨none, {resp.core with err := some responseTimeoutErr}⟩,
        some ⟨(setHeader w "Content-Type" "application/json").headers,
          some (if 200 ≤ s ∧ s ≤ 299 then 503 else s),
          some (.errorBody .responseTimeout "Service taking too long to respond.")⟩⟩ := by
  simp [finalizeResponse, hw, writeEntity, encodeEntity, responseTimeoutErr, NewError,
    defaultStatusCode]

theorem finalize_eval_encode_fail {s : Nat} {resp : Response} {w : Wire}
    (hw : resp.writer = some w)
    (henc : encodeEntity resp.core = none) :
    finalizeResponse none false s resp = .error "json: unsupported value" := by
  simp [finalizeResponse, hw, writeEntity, henc]

theorem lookup_filter_none {l : List (String × String)} {k : String}
    (pfn : String × String → Bool) (h : l.lookup k = none) :
    (l.filter pfn).lookup k = none := by
  induction l with
  | nil => simp
  | cons a t ih =>
    cases a with
    | mk a1 a2 =>
      simp only [List.lookup] at h
      cases hbeq : k == a1 with
      | true => rw [hbeq] at h; exact Option.noConfusion h
      | false =>
        rw [hbeq] at h
        rw [List.filter_cons]
        cases hp : pfn (a1, a2) with
        | true =>
          simp only [if_pos rfl]
          simp only [List.lookup, hbeq]
          exact ih h
        | false =>
          simp only [Bool.false_eq_true, if_neg]
          exact ih h

/-- C1 (confirmed): when the route matched, the deadline can fire
(`ResponseTimeout` positive) and the timer branch of the select wins the
race, the finalized response carries the fixed ResponseTimeout error and the
written body is the fixed timeout error object, for every value `observed` of
the shared (status, response) state the worker task may have set — the
worker's result never appears in the written response. -/
theorem c1_timeout_overrides (r : commonRouter) (payload : Payload)
    (resp : Response) (observed : Nat × RespCore) (rc : routeConfig) (w : Wire)
    (hmatch : r.matchHandlerFunc payload = .ok rc)
    (hw : resp.writer = some w)
    (hpos : 0 < r.ResponseTimeout) :
    ∃ out wire,
      HandlePayload r payload resp .timerFired observed = .ok out ∧
      out.resp.core.err = some responseTimeoutErr ∧
      out.written = some wire ∧
      wire.body = some (.errorBody .responseTimeout "Service taking too long to respond.") := by
  have hrace : raceWinner r.ResponseTimeout .timerFired = .timerFired := by
    simp [raceWinner, getTimeoutChan, hpos, timeAfter]
  have hw2 : ({resp with core := observed.2} : Response).writer = some w := hw
  refine ⟨⟨⟨none, {observed.2 with err := some responseTimeoutErr}⟩,
      some ⟨(setHeader w "Content-Type" "application/json").headers,
        some (if 200 ≤ observed.1 ∧ observed.1 ≤ 299 then 503 else observed.1),
        some (.errorBody .responseTimeout "Service taking too long to respond.")⟩⟩,
    ⟨(setHeader w "Content-Type" "application/json").headers,
      some (if 200 ≤ observed.1 ∧ observed.1 ≤ 299 then 503 else observed.1),
      some (.errorBody .responseTimeout "Service taking too long to respond.")⟩,
    ?_, rfl, rfl, rfl⟩
  simp only [HandlePayload, hmatch, hrace]
  exact finalize_eval_timeout (s := observed.1) hw2

theorem c1_timeout_overrides_witness :
    ∃ out wire,
      HandlePayload goodRouter ⟨1, none, none⟩ ⟨some {}, ⟨none, ⟨0, true⟩⟩⟩
        .timerFired (200, ⟨none, ⟨99, true⟩⟩) = .ok out ∧
      out.resp.core.err = some responseTimeoutErr ∧
      out.written = some wire ∧
      wire.body = some (.errorBody .responseTimeout "Service taking too long to respond.") :=
  c1_timeout_overrides goodRouter ⟨1, none, none⟩ ⟨some {}, ⟨none, ⟨0, true⟩⟩⟩
    (200, ⟨none, ⟨99, true⟩⟩) ⟨"sample:op", [], okHandler⟩ {} rfl rfl (by decide)

/-- C3 (confirmed): a panic raised anywhere in the chain or the handler is
recovered (HandlePayload completes normally rather than propagating, so the
process does not terminate), the response error is set to the InternalFault
error derived from the panic payload, and the status written is that error's
canonical internal-error mapping (500). -/
theorem c3_panic_recovered (r : commonRouter) (payload : Payload) (resp : Response)
    (observed : Nat × RespCore) (rc : routeConfig) (w : Wire) (pv : String) (c2 : RespCore)
    (hmatch : r.matchHandlerFunc payload = .ok rc)
    (hw : resp.writer = some w)
    (hpanic : runChainAndHandler rc.handler {payload with requestTag := some rc.Tag}
        rc.Preprocessors 200 resp.core = .error (pv, c2)) :
    ∃ out wire,
      HandlePayload r payload resp .workerDone observed = .ok out ∧
      out.resp.core.err = some (errorFromRecoveringPanic pv) ∧
      (errorFromRecoveringPanic pv).code = .unexpectedError ∧
      out.written = some wire ∧
      wire.status = some (defaultStatusCode (errorFromRecoveringPanic pv)) ∧
      defaultStatusCode (errorFromRecoveringPanic pv) = 500 ∧
      wire.body = some (.errorBody .unexpectedError ((errorFromRecoveringPanic pv).message)) := by
  have hcall : callHandler rc.handler rc.Preprocessors {payload with requestTag := some rc.Tag}
      resp.core = (500, {c2 with err := some (errorFromRecoveringPanic pv)}) := by
    simp [callHandler, hpanic, errorFromRecoveringPanic, defaultStatusCode]
  have hw2 : ({resp with core := {c2 with err := some (errorFromRecoveringPanic pv)}} :
      Response).writer = some w := hw
  have henc : encodeEntity ({resp with
        core := {c2 with err := some (errorFromRecoveringPanic pv)}} : Response).core
      = some (.errorBody .unexpectedError ((errorFromRecoveringPanic pv).message)) := rfl
  have heval := finalize_eval_ok (s := 500) hw2 henc
  refine ⟨⟨⟨none, {c2 with err := some (errorFromRecoveringPanic pv)}⟩,
      some ⟨(setHeader w "Content-Type" "application/json").headers, some 500,
        some (.errorBody .unexpectedError ((errorFromRecoveringPanic pv).message))⟩⟩,
    ⟨(setHeader w "Content-Type" "application/json").headers, some 500,
      some (.errorBody .unexpectedError ((errorFromRecoveringPanic pv).message))⟩,
    ?_, rfl, rfl, rfl, rfl, rfl, rfl⟩
  simp only [HandlePayload, hmatch, raceWinner_workerDone, hcall]
  convert heval using 4

theorem c3_panic_recovered_witness :
    ∃ out wire,
      HandlePayload panicRouter ⟨1, none, none⟩ ⟨some {}, ⟨none, ⟨0, true⟩⟩⟩
        .workerDone (200, ⟨none, ⟨0, true⟩⟩) = .ok out ∧
      out.resp.core.err = some (errorFromRecoveringPanic "boom") ∧
      (errorFromRecoveringPanic "boom").code = .unexpectedError ∧
      out.written = some wire ∧
      wire.status = some (defaultStatusCode (errorFromRecoveringPanic "boom")) ∧
      defaultStatusCode (errorFromRecoveringPanic "boom") = 500 ∧
      wire.body = some (.errorBody .unexpectedError ((errorFromRecoveringPanic "boom").message)) :=
  c3_panic_recovered panicRouter ⟨1, none, none⟩ ⟨some {}, ⟨none, ⟨0, true⟩⟩⟩
    (200, ⟨none, ⟨0, true⟩⟩) ⟨"sample:op", [], panicHandler⟩ {} "boom" ⟨none, ⟨0, true⟩⟩
    rfl rfl rfl

/-- C7 (confirmed): `getTimeoutChan` returns the one-shot timer for a
positive duration and a never-firing channel for a non-positive one; with a
non-positive configured deadline the race outcome is independent of the
oracle (the worker-completion branch always wins) and the finalized response
core is exactly what the worker left, with the worker's encoded entity as the
written body — no timeout logic modifies it. -/
theorem c7_disabled_timeout (r : commonRouter) (payload : Payload) (resp : Response)
    (observed : Nat × RespCore) (oracle : RaceWinner) (rc : routeConfig) (w : Wire)
    (body : WireBody)
    (hd : r.ResponseTimeout ≤ 0)
    (hmatch : r.matchHandlerFunc payload = .ok rc)
    (hw : resp.writer = some w)
    (henc : encodeEntity (callHandler rc.handler rc.Preprocessors
        {payload with requestTag := some rc.Tag} resp.core).2 = some body) :
    (∀ d : Int, 0 < d → getTimeoutChan d = timeAfter d ∧ (timeAfter d).fires = true) ∧
    (∀ d : Int, d ≤ 0 → getTimeoutChan d = newTimeChan ∧ newTimeChan.fires = false) ∧
    (HandlePayload r payload resp oracle observed =
      HandlePayload r payload resp .workerDone observed) ∧
    (∃ out wire,
      HandlePayload r payload resp oracle observed = .ok out ∧
      out.resp.core = (callHandler rc.handler rc.Preprocessors
        {payload with requestTag := some rc.Tag} resp.core).2 ∧
      out.written = some wire ∧
      wire.body = some body) := by
  have hchan : ∀ d : Int, d ≤ 0 → getTimeoutChan d = newTimeChan := by
    intro d hd0
    simp [getTimeoutChan, not_lt.mpr hd0]
  have hrace : ∀ o : RaceWinner, raceWinner r.ResponseTimeout o = .workerDone := by
    intro o
    simp [raceWinner, hchan _ hd, newTimeChan]
  have horacle : HandlePayload r payload resp oracle observed =
      HandlePayload r payload resp .workerDone observed := by
    simp only [HandlePayload, hrace]
  have hw2 : ({resp with core := (callHandler rc.handler rc.Preprocessors
      {payload with requestTag := some rc.Tag} resp.core).2} : Response).writer = some w := hw
  have heval := finalize_eval_ok (s := (callHandler rc.handler rc.Preprocessors
    {payload with requestTag := some rc.Tag} resp.core).1) hw2 henc
  refine ⟨?_, ?_, horacle, ?_⟩
  · intro d hd0
    exact ⟨by simp [getTimeoutChan, hd0], rfl⟩
  · intro d hd0
    exact ⟨hchan d hd0, rfl⟩
  · refine ⟨⟨⟨none, (callHandler rc.handler rc.Preprocessors
        {payload with requestTag := some rc.Tag} resp.core).2⟩,
      some ⟨(setHeader w "Content-Type" "application/json").headers,
        some (match (callHandler rc.handler rc.Preprocessors
            {payload with requestTag := some rc.Tag} resp.core).2.err with
          | some e => if 200 ≤ (callHandler rc.handler rc.Preprocessors
                {payload with requestTag := some rc.Tag} resp.core).1 ∧
              (callHandler rc.handler rc.Preprocessors
                {payload with requestTag := some rc.Tag} resp.core).1 ≤ 299 then
              defaultStatusCode e
            else (callHandler rc.handler rc.Preprocessors
              {payload with requestTag := some rc.Tag} resp.core).1
          | none => (callHandler rc.handler rc.Preprocessors
              {payload with requestTag := some rc.Tag} resp.core).1),
        some body⟩⟩,
      ⟨(setHeader w "Content-Type" "application/json").headers,
        some (match (callHandler rc.handler rc.Preprocessors
            {payload with requestTag := some rc.Tag} resp.core).2.err with
          | some e => if 200 ≤ (callHandler rc.handler rc.Preprocessors
                {payload with requestTag := some rc.Tag} resp.core).1 ∧
              (callHandler rc.handler rc.Preprocessors
                {payload with requestTag := some rc.Tag} resp.core).1 ≤ 299 then
              defaultStatusCode e
            else (callHandler rc.handler rc.Preprocessors
              {payload with requestTag := some rc.Tag} resp.core).1
          | none => (callHandler rc.handler rc.Preprocessors
              {payload with requestTag := some rc.Tag} resp.core).1),
        some body⟩,
      ?_, rfl, rfl, rfl⟩
    rw [horacle]
    simp only [HandlePayload, hmatch, raceWinner_workerDone]
    exact heval

theorem c7_disabled_timeout_witness :
    ∃ out wire,
      HandlePayload disabledTimeoutRouter ⟨1, none, none⟩ ⟨some {}, ⟨none, ⟨0, true⟩⟩⟩
        .timerFired (77, ⟨some (NewError (.appError 418) "teapot"), ⟨5, true⟩⟩) = .ok out ∧
      out.resp.core = (callHandler okHandler []
        ⟨1, none, some "sample:op"⟩ ⟨none, ⟨0, true⟩⟩).2 ∧
      out.written = some wire ∧
      wire.body = some (.resultBody ⟨42, true⟩) :=
  (c7_disabled_timeout disabledTimeoutRouter ⟨1, none, none⟩ ⟨some {}, ⟨none, ⟨0, true⟩⟩⟩
    (77, ⟨some (NewError (.appError 418) "teapot"), ⟨5, true⟩⟩) .timerFired
    ⟨"sample:op", [], okHandler⟩ {} (.resultBody ⟨42, true⟩)
    (by decide) rfl rfl rfl).2.2.2

/-- C8 (confirmed): a `writeEntity` failure inside the finalization step is
re-raised after the recovery point and escapes HandlePayload as an error
(terminating that request's handling abnormally instead of becoming response
data), while a runtime fault raised in the chain or handler is recovered and
converted to response data. -/
theorem c8_write_fault_escapes (r : commonRouter) (payload : Payload) (resp : Response)
    (observed : Nat × RespCore) (rc : routeConfig) (w : Wire)
    (hmatch : r.matchHandlerFunc payload = .ok rc)
    (hw : resp.writer = some w) :
    (encodeEntity (callHandler rc.handler rc.Preprocessors
        {payload with requestTag := some rc.Tag} resp.core).2 = none →
      HandlePayload r payload resp .workerDone observed = .error "json: unsupported value") ∧
    (∀ pv c2, runChainAndHandler rc.handler {payload with requestTag := some rc.Tag}
        rc.Preprocessors 200 resp.core = .error (pv, c2) →
      ∃ out, HandlePayload r payload resp .workerDone observed = .ok out ∧
        out.resp.core.err = some (errorFromRecoveringPanic pv)) := by
  constructor
  · intro henc
    have hw2 : ({resp with core := (callHandler rc.handler rc.Preprocessors
        {payload with requestTag := some rc.Tag} resp.core).2} : Response).writer = some w := hw
    simp only [HandlePayload, hmatch, raceWinner_workerDone]
    exact finalize_eval_encode_fail (s := (callHandler rc.handler rc.Preprocessors
      {payload with requestTag := some rc.Tag} resp.core).1) hw2 henc
  · intro pv c2 hpanic
    have hcall : callHandler rc.handler rc.Preprocessors {payload with requestTag := some rc.Tag}
        resp.core = (500, {c2 with err := some (errorFromRecoveringPanic pv)}) := by
      simp [callHandler, hpanic, errorFromRecoveringPanic, defaultStatusCode]
    have hw2 : ({resp with core := {c2 with err := some (errorFromRecoveringPanic pv)}} :
        Response).writer = some w := hw
    have henc2 : encodeEntity ({resp with
          core := {c2 with err := some (errorFromRecoveringPanic pv)}} : Response).core
        = some (.errorBody .unexpectedError ((errorFromRecoveringPanic pv).message)) := rfl
    have heval := finalize_eval_ok (s := 500) hw2 henc2
    refine ⟨⟨⟨none, {c2 with err := some (errorFromRecoveringPanic pv)}⟩,
        some ⟨(setHeader w "Content-Type" "application/json").headers, some 500,
          some (.errorBody .unexpectedError ((errorFromRecoveringPanic pv).message))⟩⟩,
      ?_, rfl⟩
    simp only [HandlePayload, hmatch, raceWinner_workerDone, hcall]
    convert heval using 4

theorem c8_write_fault_escapes_witness :
    HandlePayload badEncodeRouter ⟨1, none, none⟩ ⟨some {}, ⟨none, ⟨0, true⟩⟩⟩
      .workerDone (200, ⟨none, ⟨0, true⟩⟩) = .error "json: unsupported value" ∧
    (∃ out, HandlePayload panicRouter ⟨1, none, none⟩ ⟨some {}, ⟨none, ⟨0, true⟩⟩⟩
      .workerDone (200, ⟨none, ⟨0, true⟩⟩) = .ok out ∧
      out.resp.core.err = some (errorFromRecoveringPanic "boom")) :=
  ⟨(c8_write_fault_escapes badEncodeRouter ⟨1, none, none⟩ ⟨some {}, ⟨none, ⟨0, true⟩⟩⟩
      (200, ⟨none, ⟨0, true⟩⟩) ⟨"sample:op", [], badResultHandler⟩ {} rfl rfl).1 rfl,
   (c8_write_fault_escapes panicRouter ⟨1, none, none⟩ ⟨some {}, ⟨none, ⟨0, true⟩⟩⟩
      (200, ⟨none, ⟨0, true⟩⟩) ⟨"sample:op", [], panicHandler⟩ {} rfl rfl).2 "boom"
      ⟨none, ⟨0, true⟩⟩ rfl⟩

/-- C4 counterexample: on the decode-failure path, `ServeHTTP` writes the
status without ever setting Content-Type — the written wire carries only the
Server header, refuting the claim that every written response carries
Content-Type: application/json. -/
theorem c4_counterexample :
    ServeHTTP goodRouter "bad" {} .workerDone (200, ⟨none, ⟨0, true⟩⟩) =
      .ok ⟨⟨some ⟨[("Server", serverHeaderValue)], some 400, none⟩,
        ⟨some (NewRequestJSONInvalidErr "EOF"), ⟨0, true⟩⟩⟩,
        some ⟨[("Server", serverHeaderValue)], some 400, none⟩⟩ ∧
    headerGet ⟨[("Server", serverHeaderValue)], some 400, none⟩ "Content-Type" = none :=
  ⟨rfl, rfl⟩

/-- C4 (amended: the decode-failure path writes only the status line with the
Server header and no Content-Type; every other path that writes a response —
route not found, processor error, panic recovery, timeout, success — sets
Content-Type: application/json). -/
theorem c4_content_type :
    (∀ (r : commonRouter) (payload : Payload) (resp : Response) (oracle : RaceWinner)
       (observed : Nat × RespCore) (out : FinalizeOut) (w : Wire),
       resp.writer = some w →
       HandlePayload r payload resp oracle observed = .ok out →
       ∃ wire, out.written = some wire ∧
         headerGet wire "Content-Type" = some "application/json") ∧
    (∀ (r : commonRouter) (req : String) (w : Wire) (e : String) (oracle : RaceWinner)
       (observed : Nat × RespCore),
       r.payloadFunc req = .error e →
       headerGet w "Content-Type" = none →
       ∃ out wire, ServeHTTP r req w oracle observed = .ok out ∧
         out.written = some wire ∧ headerGet wire "Content-Type" = none) := by
  constructor
  · intro r payload resp oracle observed out w hw hok
    simp only [HandlePayload] at hok
    split at hok
    · refine finalize_sets_content_type (w := w) ?_ hok
      exact hw
    · split at hok
      · refine finalize_sets_content_type (w := w) ?_ hok
        exact hw
      · refine finalize_sets_content_type (w := w) ?_ hok
        exact hw
  · intro r req w e oracle observed hdec hct
    refine ⟨⟨⟨some ⟨(setHeader w "Server" serverHeaderValue).headers, some 400, w.body⟩,
        ⟨some (NewRequestJSONInvalidErr e), ⟨0, true⟩⟩⟩,
        some ⟨(setHeader w "Server" serverHeaderValue).headers, some 400, w.body⟩⟩,
      ⟨(setHeader w "Server" serverHeaderValue).headers, some 400, w.body⟩,
      ?_, rfl, ?_⟩
    · simp only [ServeHTTP, hdec]
      rfl
    · simp only [setHeader, headerGet, List.lookup]
      rw [show (("Content-Type" : String) == "Server") = false from by decide]
      exact lookup_filter_none _ hct

theorem c4_content_type_witness :
    (∃ wire, (⟨⟨none, ⟨none, ⟨42, true⟩⟩⟩,
        some ⟨[("Content-Type", "application/json")], some 200,
          some (.resultBody ⟨42, true⟩)⟩⟩ : FinalizeOut).written = some wire ∧
      headerGet wire "Content-Type" = some "application/json") ∧
    (∃ out wire, ServeHTTP goodRouter "bad" {} .workerDone (200, ⟨none, ⟨0, true⟩⟩) = .ok out ∧
      out.written = some wire ∧ headerGet wire "Content-Type" = none) :=
  ⟨c4_content_type.1 goodRouter ⟨1, none, none⟩ ⟨some {}, ⟨none, ⟨0, true⟩⟩⟩ .workerDone
      (200, ⟨none, ⟨0, true⟩⟩) ⟨⟨none, ⟨none, ⟨42, true⟩⟩⟩,
        some ⟨[("Content-Type", "application/json")], some 200,
          some (.resultBody ⟨42, true⟩)⟩⟩ {} rfl rfl,
   c4_content_type.2 goodRouter "bad" {} "EOF" .workerDone (200, ⟨none, ⟨0, true⟩⟩) rfl rfl⟩

/-- C5 counterexample: on a decode failure the dispatcher writes only the
status header; the written wire has no body at all, refuting the claim that
the body's error code identifies the decode failure. -/
theorem c5_counterexample :
    ServeHTTP goodRouter "bad" ({} : Wire) .timerFired (200, ⟨none, ⟨0, true⟩⟩) =
      .ok ⟨⟨some ⟨[("Server", serverHeaderValue)], some 400, none⟩,
        ⟨some (NewRequestJSONInvalidErr "EOF"), ⟨0, true⟩⟩⟩,
        some ⟨[("Server", serverHeaderValue)], some 400, none⟩⟩ ∧
    (⟨[("Server", serverHeaderValue)], some 400, none⟩ : Wire).body = none :=
  ⟨rfl, rfl⟩

/-- C5 (amended: on decode failure the dispatcher sets the RequestMalformed
error on the response and writes exactly once — the status line only, with
the canonical bad-request status 400 and no JSON body — and runs no further
stages: the outcome is independent of the matcher, processors and handler). -/
theorem c5_decode_failure (r : commonRouter) (req : String) (w : Wire)
    (oracle : RaceWinner) (observed : Nat × RespCore) (e : String)
    (hdec : r.payloadFunc req = .error e) :
    ServeHTTP r req w oracle observed =
      .ok ⟨⟨some ⟨(setHeader w "Server" serverHeaderValue).headers, some 400, w.body⟩,
        ⟨some (NewRequestJSONInvalidErr e), ⟨0, true⟩⟩⟩,
        some ⟨(setHeader w "Server" serverHeaderValue).headers, some 400, w.body⟩⟩ ∧
    defaultStatusCode (NewRequestJSONInvalidErr e) = 400 ∧
    (∀ r2 : commonRouter, r2.payloadFunc = r.payloadFunc →
      ServeHTTP r2 req w oracle observed = ServeHTTP r req w oracle observed) := by
  refine ⟨?_, rfl, ?_⟩
  · simp only [ServeHTTP, hdec]
    rfl
  · intro r2 h2
    simp only [ServeHTTP, h2, hdec]

theorem c5_decode_failure_witness :
    ServeHTTP goodRouter "bad" ({} : Wire) .workerDone (77, ⟨none, ⟨9, true⟩⟩) =
      .ok ⟨⟨some ⟨(setHeader {} "Server" serverHeaderValue).headers, some 400,
          ({} : Wire).body⟩,
        ⟨some (NewRequestJSONInvalidErr "EOF"), ⟨0, true⟩⟩⟩,
        some ⟨(setHeader {} "Server" serverHeaderValue).headers, some 400,
          ({} : Wire).body⟩⟩ :=
  (c5_decode_failure goodRouter "bad" {} .workerDone (77, ⟨none, ⟨9, true⟩⟩) "EOF" rfl).1

theorem runChainAndHandler_allOk (handler : Handler) (payload : Payload) :
    ∀ (pp : List Processor) (core : RespCore) (s0 : Nat),
      chainAllOk payload pp core = true →
      runChainAndHandler handler payload pp s0 core =
        (match handler payload (chainFold payload pp s0 core).2 with
         | .done r => .ok ((chainFold payload pp s0 core).1, r)
         | .panicked pv r => .error (pv, r)) := by
  intro pp
  induction pp with
  | nil =>
    intro core s0 h
    rfl
  | cons p rest ih =>
    intro core s0 h
    simp only [chainAllOk] at h
    cases hp : p payload core with
    | panicked pv r =>
      rw [hp] at h
      exact Bool.noConfusion h
    | ok s2 c2 =>
      rw [hp] at h
      simp only [Bool.and_eq_true] at h
      obtain ⟨he, hrest⟩ := h
      have herr : c2.err = none := Option.isNone_iff_eq_none.mp he
      simp only [runChainAndHandler, chainFold, hp, herr]
      exact ih c2 s2 hrest

theorem runChainAndHandler_append_err (handler : Handler) (payload : Payload)
    (p : Processor) (post : List Processor) (s : Nat) (c2 : RespCore) (e : SkyError) :
    ∀ (pre : List Processor) (core : RespCore) (s0 : Nat),
      chainAllOk payload pre core = true →
      p payload (chainFold payload pre s0 core).2 = .ok s c2 →
      c2.err = some e →
      runChainAndHandler handler payload (pre ++ p :: post) s0 core =
        .ok (if s = 200 then defaultStatusCode e else s, c2) := by
  intro pre
  induction pre with
  | nil =>
    intro core s0 h hp herr
    have hp2 : p payload core = ProcResult.ok s c2 := hp
    simp only [List.nil_append, runChainAndHandler, hp2, herr]
  | cons q rest ih =>
    intro core s0 h hp herr
    simp only [chainAllOk] at h
    cases hq : q payload core with
    | panicked pv r =>
      rw [hq] at h
      exact Bool.noConfusion h
    | ok sq cq =>
      rw [hq] at h
      simp only [Bool.and_eq_true] at h
      obtain ⟨hqe, hrest⟩ := h
      have hqe2 : cq.err = none := Option.isNone_iff_eq_none.mp hqe
      have hfold : chainFold payload (q :: rest) s0 core = chainFold payload rest sq cq := by
        simp [chainFold, hq]
      rw [hfold] at hp
      simp only [List.cons_append, runChainAndHandler, hq, hqe2]
      exact ih cq sq hrest hp herr

/-- C2 (confirmed): along the actual execution states, if a prefix of the
chain runs without error and the next processor returns with the error set,
the chain result is independent of the remaining processors and of the
handler (they are never invoked) and the status is the error's canonical
mapping unless the processor supplied a non-default (non-200) hint; if every
processor completes without error, the result is the handler run exactly once
on the in-registration-order fold of the chain, with the last processor's
hint as the status. -/
theorem c2_chain (payload : Payload) (core : RespCore) :
    (∀ (pre post : List Processor) (p : Processor) (handler : Handler)
       (s : Nat) (c2 : RespCore) (e : SkyError),
       chainAllOk payload pre core = true →
       p payload (chainFold payload pre 200 core).2 = .ok s c2 →
       c2.err = some e →
       callHandler handler (pre ++ p :: post) payload core =
         (if s = 200 then defaultStatusCode e else s, c2)) ∧
    (∀ (pp : List Processor) (handler : Handler),
       chainAllOk payload pp core = true →
       callHandler handler pp payload core =
         handleOutcome handler payload (chainFold payload pp 200 core)) := by
  constructor
  · intro pre post p handler s c2 e h hp herr
    unfold callHandler
    rw [runChainAndHandler_append_err handler payload p post s c2 e pre core 200 h hp herr]
  · intro pp handler h
    unfold callHandler handleOutcome
    rw [runChainAndHandler_allOk handler payload pp core 200 h]
    cases hh : handler payload (chainFold payload pp 200 core).2 <;> simp [hh]

theorem c2_chain_witness :
    callHandler okHandler [hintProcessor, forbidProcessor, hintProcessor]
      ⟨1, none, none⟩ ⟨none, ⟨0, true⟩⟩ =
      (403, ⟨some (NewError (.appError 403) "forbidden"), ⟨0, true⟩⟩) ∧
    callHandler okHandler [hintProcessor] ⟨1, none, none⟩ ⟨none, ⟨0, true⟩⟩ =
      (201, ⟨none, ⟨42, true⟩⟩) :=
  ⟨(c2_chain ⟨1, none, none⟩ ⟨none, ⟨0, true⟩⟩).1 [hintProcessor] [hintProcessor]
      forbidProcessor okHandler 200 ⟨some (NewError (.appError 403) "forbidden"), ⟨0, true⟩⟩
      (NewError (.appError 403) "forbidden") rfl rfl rfl,
   (c2_chain ⟨1, none, none⟩ ⟨none, ⟨0, true⟩⟩).2 [hintProcessor] okHandler rfl⟩

theorem c10_logger_registry_witness :
    Logger "" initialLogState = (0, initialLogState) ∧
    Logger "router" initialLogState =
      (1, ⟨[("router", 1), ("", 0)], 2, false, []⟩) ∧
    ((Logger "router" initialLogState).2).loggers.lookup "" = some 0 := by
  refine ⟨(c10_logger_registry "" initialLogState).1 0 (by decide), ?_, ?_⟩
  · have h := ((c10_logger_registry "router" initialLogState).2.1 (by decide)).1
    simpa [initialLogState] using h
  · exact (c10_logger_registry "" initialLogState).2.2 "router" 0 (by decide) (by decide)
